import Mathlib

/-!
Shallow embedding of `upup/pkg/fi/cloudup/gcetasks/instance.go` (kops GCE
instance task): the Instance task shape, `Find`, `mapToGCE`, `isZero`,
`RenderGCE`, `waitCompletion`, and the identifier / scope-alias utilities.

Go conventions are modelled as follows: a Go pointer field is an
`Option`; a nil slice / nil map is `none` and a non-nil (possibly empty)
one is `some l` (reflect.DeepEqual distinguishes these); a Go function
returning `(T, error)` is `Except String T`; a nil-pointer dereference
(a crash, not an error return) is `GErr.fault`; `glog.Exitf` (process
exit) is `GErr.exits`; an out-of-range slice index is `GErr.crash`.
Backend (GCE API) responses are supplied as oracle functions / lists in
the target structures, and the backend calls a render pass issues are
returned as an explicit trace.
-/

namespace KopsGCE

/-- Errors and crashes a modelled operation can produce.  `err` is an
ordinary returned Go `error`; `fault` is a nil-pointer dereference naming
the dereferenced field; `exits` is `glog.Exitf`; `crash` is a runtime
panic other than a nil dereference (e.g. index out of range). -/
inductive GErr where
  | err (msg : String)
  | fault (field : String)
  | exits (msg : String)
  | crash (msg : String)
  deriving DecidableEq, Repr

/-! ### Splitting on "/" (Go `strings.Split(s, "/")`) -/

/-- Accumulator-based splitting of a character list at `'/'`, the model of
Go `strings.Split(s, "/")` (which yields `n+1` pieces for `n` separators,
and `[""]` on the empty string). -/
def splitSlashAux : List Char → List Char → List String
  | [], acc => [String.mk acc.reverse]
  | c :: cs, acc =>
    if c = '/' then String.mk acc.reverse :: splitSlashAux cs []
    else splitSlashAux cs (c :: acc)

/-- Go `strings.Split(s, "/")`. -/
def splitSlash (s : String) : List String :=
  splitSlashAux s.data []

/-- Modelled from the spec: `lastComponent` (a gcetasks utility whose file is
not under src/) takes the last path component of a canonical URL, i.e. the
last piece of the `"/"`-split (the split is never empty; `""` is a dead
default). -/
def lastComponent (s : String) : String :=
  ((splitSlash s).getLast?).getD ""

/-! ### Scope alias table (instance.go lines 146-193) -/

/-- The fixed alias table built by `init()` (instance.go lines 166-176),
as an association list. -/
def scopeAliases : List (String × String) :=
  [("storage-ro", "https://www.googleapis.com/auth/devstorage.read_only"),
   ("storage-rw", "https://www.googleapis.com/auth/devstorage.read_write"),
   ("compute-ro", "https://www.googleapis.com/auth/compute.read_only"),
   ("compute-rw", "https://www.googleapis.com/auth/compute"),
   ("monitoring", "https://www.googleapis.com/auth/monitoring"),
   ("monitoring-write", "https://www.googleapis.com/auth/monitoring.write"),
   ("logging-write", "https://www.googleapis.com/auth/logging.write")]

/-- Model of `expandScopeAlias` (instance.go lines 146-164): the switch over the 7
short mnemonics; any other string falls through unchanged. -/
def expandScopeAlias (s : String) : String :=
  if s = "storage-ro" then "https://www.googleapis.com/auth/devstorage.read_only"
  else if s = "storage-rw" then "https://www.googleapis.com/auth/devstorage.read_write"
  else if s = "compute-ro" then "https://www.googleapis.com/auth/compute.read_only"
  else if s = "compute-rw" then "https://www.googleapis.com/auth/compute"
  else if s = "monitoring" then "https://www.googleapis.com/auth/monitoring"
  else if s = "monitoring-write" then "https://www.googleapis.com/auth/monitoring.write"
  else if s = "logging-write" then "https://www.googleapis.com/auth/logging.write"
  else s

/-- First key of the table whose value is `s` (the Go `range` scan in
`scopeToShortForm`; the table's values are distinct so iteration order is
immaterial). -/
def lookupByValue (s : String) : List (String × String) → Option String
  | [] => none
  | kv :: rest => if kv.2 = s then some kv.1 else lookupByValue s rest

/-- Model of `scopeToShortForm` (instance.go lines 186-193): reverse value lookup
over the alias table, passthrough when unmatched. -/
def scopeToShortForm (s : String) : String :=
  match lookupByValue s scopeAliases with
  | some k => k
  | none => s

/-- Key lookup (Go map index). -/
def lookupByKey (s : String) : List (String × String) → Option String
  | [] => none
  | kv :: rest => if kv.1 = s then some kv.2 else lookupByKey s rest

/-- Model of `scopeToLongForm` (instance.go lines 178-184): map lookup, passthrough
when absent. -/
def scopeToLongForm (s : String) : String :=
  match lookupByKey s scopeAliases with
  | some e => e
  | none => s

/-! ### Identifier utilities (instance.go lines 408-438) -/

/-- Model of `BuildMachineTypeURL` (instance.go lines 408-410). -/
def BuildMachineTypeURL (project zone name : String) : String :=
  "https://www.googleapis.com/compute/v1/projects/" ++ project ++ "/zones/" ++
    zone ++ "/machineTypes/" ++ name

/-- The Sprintf template of `BuildImageURL` (instance.go line 425). -/
def imageURLString (project name : String) : String :=
  "https://www.googleapis.com/compute/v1/projects/" ++ project ++
    "/global/images/" ++ name

/-- Model of `BuildImageURL` (instance.go lines 412-426): a bare name is combined
with the default project, a "project/name" spec keeps its project, and any
other shape hits `glog.Exitf` (process exit, modelled as `GErr.exits`). -/
def BuildImageURL (defaultProject nameSpec : String) : Except GErr String :=
  match splitSlash nameSpec with
  | [name] => .ok (imageURLString defaultProject name)
  | [project, name] => .ok (imageURLString project name)
  | _ => .error (.exits ("Cannot parse image spec: " ++ nameSpec))

/-- Parsed form of a canonical Google Cloud resource URL. -/
structure GoogleCloudURL where
  project : String
  zone : String
  typ : String
  name : String
  deriving DecidableEq, Repr

/-- Modelled from the spec: `gce.ParseGoogleCloudURL` lives in the `gce`
package, not under src/.  Per the spec it "parses a canonical URL into
(project, name)"; canonical URLs are the two shapes the builders emit:
`https://www.googleapis.com/compute/v1/projects/P/global/T/N` and
`https://www.googleapis.com/compute/v1/projects/P/zones/Z/T/N`. -/
def parseGoogleCloudURL (u : String) : Except String GoogleCloudURL :=
  match splitSlash u with
  | ["https:", "", "www.googleapis.com", "compute", "v1", "projects", p, "global", t, n] =>
    .ok { project := p, zone := "", typ := t, name := n }
  | ["https:", "", "www.googleapis.com", "compute", "v1", "projects", p, "zones", z, t, n] =>
    .ok { project := p, zone := z, typ := t, name := n }
  | _ => .error ("cannot parse url: " ++ u)

/-- Model of `ShortenImageURL` (instance.go lines 428-438). -/
def ShortenImageURL (defaultProject imageURL : String) : Except String String :=
  match parseGoogleCloudURL imageURL with
  | .error e => .error e
  | .ok u =>
    if u.project = defaultProject then .ok u.name
    else .ok (u.project ++ "/" ++ u.name)

/-! ### Data model (instance.go lines 19-38 and sibling resource references) -/

/-- Model of `fi.Resource`: a lazily-rendered content source.  `fi.ResourceAsString`
either yields the content or fails, so a resource is modelled by that
outcome; `fi.NewStringResource s` is `.ok s`. -/
abbrev Resource := Except String String

instance {α β : Type} [DecidableEq α] [DecidableEq β] : DecidableEq (Except α β) := fun a b =>
  match a, b with
  | .ok x, .ok y => if h : x = y then .isTrue (by rw [h]) else .isFalse (by simp [h])
  | .error x, .error y => if h : x = y then .isTrue (by rw [h]) else .isFalse (by simp [h])
  | .ok _, .error _ => .isFalse (by simp)
  | .error _, .ok _ => .isFalse (by simp)

/-- Modelled from the spec: the sibling `Network` task (its file is not
under src/) exposes a `Name` pointer and a URL-style accessor. -/
structure Network where
  Name : Option String
  deriving DecidableEq, Repr

/-- Modelled from the spec: the sibling `Subnet` task exposes a `Name`
pointer. -/
structure Subnet where
  Name : Option String
  deriving DecidableEq, Repr

/-- Modelled from the spec: the sibling `IPAddress` task exposes a `Name`
pointer and an already-resolved literal `Address` value. -/
structure IPAddress where
  Name : Option String
  Address : Option String
  deriving DecidableEq, Repr

/-- Modelled from the spec: the sibling `PersistentDisk` task exposes a
`Name` pointer and a URL-style accessor. -/
structure PersistentDisk where
  Name : Option String
  deriving DecidableEq, Repr

/-- Modelled from the spec: `Network.URL` builds the canonical URL for the
network, dereferencing the (possibly nil) receiver's `Name`. -/
def Network.URL (project : String) : Option Network → Except GErr String
  | none => .error (.fault "Network")
  | some nw =>
    match nw.Name with
    | none => .error (.fault "Network.Name")
    | some n =>
      .ok ("https://www.googleapis.com/compute/v1/projects/" ++ project ++
        "/global/networks/" ++ n)

/-- Modelled from the spec: `PersistentDisk.URL` builds the canonical URL
for the disk, dereferencing the disk's `Name`. -/
def PersistentDisk.URL (project : String) (d : PersistentDisk) : Except GErr String :=
  match d.Name with
  | none => .error (.fault "PersistentDisk.Name")
  | some n =>
    .ok ("https://www.googleapis.com/compute/v1/projects/" ++ project ++
      "/disks/" ++ n)

/-- The `Instance` task (instance.go lines 19-38).  Pointer fields are
`Option`; `Tags`/`Scopes` are nilable slices, `Disks`/`Metadata` nilable
maps (modelled as association lists), so all four are `Option` as well;
`metadataFingerprint` is the unexported concurrency token. -/
structure Instance where
  Name : Option String
  Network : Option Network
  Tags : Option (List String)
  Preemptible : Option Bool
  Image : Option String
  Disks : Option (List (String × PersistentDisk))
  CanIPForward : Option Bool
  IPAddress : Option IPAddress
  Subnet : Option Subnet
  Scopes : Option (List String)
  Metadata : Option (List (String × Resource))
  Zone : Option String
  MachineType : Option String
  metadataFingerprint : String
  deriving DecidableEq, Repr

/-- The freshly constructed `&Instance{}` (every field at its Go zero
value). -/
def zeroInstance : Instance :=
  { Name := none, Network := none, Tags := none, Preemptible := none,
    Image := none, Disks := none, CanIPForward := none, IPAddress := none,
    Subnet := none, Scopes := none, Metadata := none, Zone := none,
    MachineType := none, metadataFingerprint := "" }

/-- Model of `CompareWithID` (instance.go lines 42-44). -/
def Instance.CompareWithID (e : Instance) : Option String := e.Name

/-- Model of `isZero` (instance.go lines 315-318): `reflect.DeepEqual` against a
freshly constructed zero `Instance`. -/
def Instance.isZero (i : Instance) : Bool := i = zeroInstance

/-! ### Mapped backend payload (`compute.Instance` as built by mapToGCE) -/

/-- Model of `compute.AttachedDiskInitializeParams` (only the field the code sets). -/
structure InitializeParams where
  sourceImage : String
  deriving DecidableEq, Repr

/-- Model of `compute.AttachedDisk` (the fields the code sets; unset Go fields carry
their zero values). -/
structure AttachedDisk where
  source : String
  initializeParams : Option InitializeParams
  boot : Bool
  deviceName : String
  index : Nat
  autoDelete : Bool
  mode : String
  typ : String
  deriving DecidableEq, Repr

/-- Model of `compute.AccessConfig`. -/
structure AccessConfig where
  natIP : String
  typ : String
  deriving DecidableEq, Repr

/-- Model of `compute.NetworkInterface`. -/
structure NetworkInterface where
  accessConfigs : List AccessConfig
  network : String
  subnetwork : String
  deriving DecidableEq, Repr

/-- Model of `compute.ServiceAccount`. -/
structure ServiceAccount where
  email : String
  scopes : List String
  deriving DecidableEq, Repr

/-- Model of `compute.MetadataItems`. -/
structure MetadataItem where
  key : String
  value : Option String
  deriving DecidableEq, Repr

/-- Model of `compute.Metadata`. -/
structure ComputeMetadata where
  items : List MetadataItem
  fingerprint : String
  deriving DecidableEq, Repr

/-- Model of `compute.Scheduling`. -/
structure Scheduling where
  automaticRestart : Bool
  onHostMaintenance : String
  preemptible : Bool
  deriving DecidableEq, Repr

/-- The `compute.Instance` payload built by `mapToGCE` (instance.go lines
290-310).  `tags` is the nilable `*compute.Tags` (holding its `Items`). -/
structure ComputeInstance where
  canIpForward : Bool
  disks : List AttachedDisk
  machineType : String
  metadata : ComputeMetadata
  name : String
  networkInterfaces : List NetworkInterface
  scheduling : Scheduling
  serviceAccounts : List ServiceAccount
  tags : Option (List String)
  deriving DecidableEq, Repr

/-! ### mapToGCE (instance.go lines 195-313) -/

/-- Model of `fi.BoolValue`: nil-safe dereference of a `*bool`. -/
def boolValue : Option Bool → Bool
  | none => false
  | some b => b

/-- The scheduling block (instance.go lines 198-211). -/
def mkScheduling (preemptible : Option Bool) : Scheduling :=
  if boolValue preemptible then
    { automaticRestart := false, onHostMaintenance := "TERMINATE", preemptible := true }
  else
    { automaticRestart := true, onHostMaintenance := "MIGRATE", preemptible := false }

/-- The boot disk literal (instance.go lines 214-224). -/
def bootDisk (imageURL : String) : AttachedDisk :=
  { source := "", initializeParams := some { sourceImage := imageURL },
    boot := true, deviceName := "persistent-disks-0", index := 0,
    autoDelete := true, mode := "READ_WRITE", typ := "PERSISTENT" }

/-- The loop over `e.Disks` (instance.go lines 226-233): one attached disk
per map entry, device name = map key, auto-delete false. -/
def attachDisks (project : String) : List (String × PersistentDisk) → Except GErr (List AttachedDisk)
  | [] => .ok []
  | (name, disk) :: rest =>
    match PersistentDisk.URL project disk with
    | .error er => .error er
    | .ok url =>
      match attachDisks project rest with
      | .error er => .error er
      | .ok ds =>
        .ok ({ source := url, initializeParams := none, boot := false,
               deviceName := name, index := 0, autoDelete := false,
               mode := "READ_WRITE", typ := "" } :: ds)

/-- The network-interface block (instance.go lines 242-262): built only
when `IPAddress` is non-nil; resolves the address via the injected
resolver, then reads `e.Network.URL` (a nil `Network` faults) and, when
`Subnet` is non-nil, its `Name`. -/
def mkNetworkInterfaces (project : String)
    (resolver : IPAddress → Except String (Option String))
    (e : Instance) : Except GErr (List NetworkInterface) :=
  match e.IPAddress with
  | none => .ok []
  | some ip =>
    match resolver ip with
    | .error m => .error (.err ("unable to resolve IP for instance: " ++ m))
    | .ok none => .error (.err "instance IP address has not yet been created")
    | .ok (some addr) =>
      match Network.URL project e.Network with
      | .error er => .error er
      | .ok nwURL =>
        match e.Subnet with
        | none =>
          .ok [{ accessConfigs := [{ natIP := addr, typ := "ONE_TO_ONE_NAT" }],
                 network := nwURL, subnetwork := "" }]
        | some s =>
          match s.Name with
          | none => .error (.fault "Subnet.Name")
          | some sn =>
            .ok [{ accessConfigs := [{ natIP := addr, typ := "ONE_TO_ONE_NAT" }],
                   network := nwURL, subnetwork := sn }]

/-- The service-account block (instance.go lines 264-276): present exactly
when `Scopes` is non-nil, with every scope expanded to long form. -/
def mkServiceAccounts (e : Instance) : List ServiceAccount :=
  match e.Scopes with
  | none => []
  | some scopes => [{ email := "default", scopes := scopes.map expandScopeAlias }]

/-- The metadata-rendering loop (instance.go lines 278-288): renders every
content source, failing on the first unrenderable one. -/
def renderMetadataItems : List (String × Resource) → Except GErr (List MetadataItem)
  | [] => .ok []
  | (key, r) :: rest =>
    match r with
    | .error m =>
      .error (.err ("error rendering Instance metadata \"" ++ key ++ "\": " ++ m))
    | .ok v =>
      match renderMetadataItems rest with
      | .error er => .error er
      | .ok items => .ok ({ key := key, value := some v } :: items)

/-- Model of `mapToGCE` (instance.go lines 195-313).  The nested matches follow the
Go statement order, so the first failing dereference / error return is the
one the Go function hits: `*e.Zone` (line 196), `*e.Image` inside the boot
disk (216) then `BuildImageURL`'s exit, the disk loop (226-233), the
network-interface block (242-262), the metadata loop (278-288), then in
the composite literal `*e.CanIPForward` (291), `*e.MachineType` (295) and
`*e.Name` (301). -/
def mapToGCE (project : String)
    (resolver : IPAddress → Except String (Option String))
    (e : Instance) : Except GErr ComputeInstance :=
  match e.Zone with
  | none => .error (.fault "Zone")
  | some zone =>
    match e.Image with
    | none => .error (.fault "Image")
    | some image =>
      match BuildImageURL project image with
      | .error er => .error er
      | .ok imageURL =>
        match attachDisks project (e.Disks.getD []) with
        | .error er => .error er
        | .ok extraDisks =>
          match mkNetworkInterfaces project resolver e with
          | .error er => .error er
          | .ok networkInterfaces =>
            match renderMetadataItems (e.Metadata.getD []) with
            | .error er => .error er
            | .ok metadataItems =>
              match e.CanIPForward with
              | none => .error (.fault "CanIPForward")
              | some canIp =>
                match e.MachineType with
                | none => .error (.fault "MachineType")
                | some machineType =>
                  match e.Name with
                  | none => .error (.fault "Name")
                  | some name =>
                    .ok { canIpForward := canIp,
                          disks := bootDisk imageURL :: extraDisks,
                          machineType := BuildMachineTypeURL project zone machineType,
                          metadata := { items := metadataItems, fingerprint := "" },
                          name := name,
                          networkInterfaces := networkInterfaces,
                          scheduling := mkScheduling e.Preemptible,
                          serviceAccounts := mkServiceAccounts e,
                          tags := e.Tags }

/-! ### waitCompletion (instance.go lines 368-406) -/

/-- One entry of `compute.OperationError.Errors` (only `Message` is read
by the code; `Code`/`Location` are logged opaquely). -/
structure OpError where
  message : String
  deriving DecidableEq, Repr

/-- Model of `compute.Operation` as consumed by `waitCompletion`: its `Status`, the
nilable `Error` record holding the error list, and the nilable warning
list (only logged). -/
structure ComputeOperation where
  status : String
  error : Option (List OpError)
  warnings : Option (List String)
  deriving DecidableEq, Repr

/-- Outcome of one pass of `waitCompletion` once a poll returned a "DONE"
status (instance.go lines 393-405): success when no `Error` record is
attached (warnings only logged); the first error's message when the error
list is non-empty; and `status.Error.Errors[0]` on a non-nil `Error` with
an empty list is an index-out-of-range crash. -/
inductive WaitOutcome where
  | ok
  | err (msg : String)
  | crash
  deriving DecidableEq, Repr

/-- The terminal-status handling of `waitCompletion`. -/
def checkDone (st : ComputeOperation) : WaitOutcome :=
  match st.error with
  | none => .ok
  | some [] => .crash
  | some (e0 :: _) => .err ("operation failed: " ++ e0.message)

/-- Model of `waitCompletion` (instance.go lines 368-406).  The backend's successive
`ZoneOperations.Get(project, lastComponent op.Zone, op.Name)` responses are
supplied as the oracle list `polls`; the loop consumes them in order
(sleeping between polls), so an exhausted list models a loop that has not
yet observed a terminal status: `none` is "has not returned".  A fetch
error returns immediately; a non-"DONE" status (PENDING, RUNNING, or
anything else) is re-polled. -/
def waitCompletion (polls : List (Except String ComputeOperation)) : Option WaitOutcome :=
  match polls with
  | [] => none
  | .error m :: _ => some (.err ("error fetching operation status: " ++ m))
  | .ok st :: rest =>
    if st.status = "DONE" then some (checkDone st)
    else waitCompletion rest

/-! ### RenderGCE (instance.go lines 320-366) -/

/-- A state-mutating backend call issued by `RenderGCE`, in issue order:
`Instances.Insert(project, zone, payload)` or
`Instances.SetMetadata(project, zone, name, metadata)`. -/
inductive RCall where
  | insert (project zone : String) (payload : ComputeInstance)
  | setMetadata (project zone name : String) (md : ComputeMetadata)
  deriving DecidableEq, Repr

/-- Model of `gce.GCEAPITarget`/`gce.GCECloud` as `RenderGCE` uses it: the project
plus oracles for the responses of the backend calls it can issue
(`Instances.Insert`, whose returned operation the code discards;
`Instances.SetMetadata`; and the poll responses consumed by
`waitCompletion`). -/
structure GCEAPITarget where
  project : String
  insertResult : String → String → ComputeInstance → Except String Unit
  setMetadataResult : String → String → String → ComputeMetadata → Except String ComputeOperation
  polls : List (Except String ComputeOperation)

/-- An error returned (or crash hit) by `RenderGCE`: either a `GErr`
propagated from the mapping / backend-call / wait steps, or the final
`"Cannot apply changes to Instance: %v"` error, modelled structurally as
carrying the remaining diff that Go formats into the message. -/
inductive RenderErr where
  | g (er : GErr)
  | cannotApply (remaining : Instance)
  deriving DecidableEq, Repr

/-- Result of one `RenderGCE` pass: `result` is `none` when the pass blocks
forever inside `waitCompletion`, otherwise the returned error or success;
`calls` is the trace of mutating backend calls issued; `changes` is the
post-state of the (mutated in Go) `changes` argument. -/
structure RenderOutcome where
  result : Option (Except RenderErr Unit)
  calls : List RCall
  changes : Instance
  deriving Repr

/-- The address resolver `RenderGCE` passes to `mapToGCE` (instance.go
lines 325-327): returns the referenced address's literal `Address`. -/
def gceIPResolver (ip : IPAddress) : Except String (Option String) := .ok ip.Address

/-- Model of `RenderGCE` (instance.go lines 320-366), following the Go statement
order: dereference `*e.Zone` (line 323), map the desired state; when
`a == nil` issue exactly one insert; otherwise, when `changes.Metadata` is
non-nil, set the payload metadata's fingerprint to `a.metadataFingerprint`,
issue exactly one set-metadata call, block on `waitCompletion`, and on
success null out `changes.Metadata`; finally fail with the
cannot-apply-changes error (carrying the remaining diff, which Go formats
into the message) unless the remaining diff `isZero`. -/
def RenderGCE (t : GCEAPITarget) (a : Option Instance) (e changes : Instance) : RenderOutcome :=
  match e.Zone with
  | none => { result := some (.error (.g (.fault "Zone"))), calls := [], changes := changes }
  | some zone =>
    match mapToGCE t.project gceIPResolver e with
    | .error er => { result := some (.error (.g er)), calls := [], changes := changes }
    | .ok i =>
      match a with
      | none =>
        match t.insertResult t.project zone i with
        | .error m =>
          { result := some (.error (.g (.err ("error creating Instance: " ++ m)))),
            calls := [.insert t.project zone i], changes := changes }
        | .ok _ =>
          { result := some (.ok ()), calls := [.insert t.project zone i],
            changes := changes }
      | some a0 =>
        match changes.Metadata with
        | some _ =>
          let md : ComputeMetadata :=
            { items := i.metadata.items, fingerprint := a0.metadataFingerprint }
          match t.setMetadataResult t.project zone i.name md with
          | .error m =>
            { result := some (.error (.g (.err ("error setting metadata on instance: " ++ m)))),
              calls := [.setMetadata t.project zone i.name md], changes := changes }
          | .ok _op =>
            match waitCompletion t.polls with
            | none =>
              { result := none, calls := [.setMetadata t.project zone i.name md],
                changes := changes }
            | some (.err m) =>
              { result := some (.error (.g (.err ("error setting metadata on instance: " ++ m)))),
                calls := [.setMetadata t.project zone i.name md], changes := changes }
            | some .crash =>
              { result := some (.error (.g (.crash "index out of range in operation error list"))),
                calls := [.setMetadata t.project zone i.name md], changes := changes }
            | some .ok =>
              let ch := { changes with Metadata := none }
              if ch.isZero then
                { result := some (.ok ()),
                  calls := [.setMetadata t.project zone i.name md], changes := ch }
              else
                { result := some (.error (.cannotApply ch)),
                  calls := [.setMetadata t.project zone i.name md], changes := ch }
        | none =>
          if changes.isZero then
            { result := some (.ok ()), calls := [], changes := changes }
          else
            { result := some (.error (.cannotApply changes)), calls := [],
              changes := changes }

/-! ### Find (instance.go lines 46-136) -/

/-- A backend GET error: `gce.IsNotFound` distinguishes 404s; the carried
string is the error's `%v` serialization. -/
inductive GceErr where
  | notFound (msg : String)
  | other (msg : String)
  deriving DecidableEq, Repr

/-- Model of `compute.Tags` as read back (nilable pointer on the raw instance). -/
structure RawTags where
  items : List String
  deriving DecidableEq, Repr

/-- Model of `compute.Scheduling` as read back (only `Preemptible` is consulted). -/
structure RawScheduling where
  preemptible : Bool
  deriving DecidableEq, Repr

/-- Model of `compute.AccessConfig` as read back. -/
structure RawAccessConfig where
  natIP : String
  deriving DecidableEq, Repr

/-- Model of `compute.NetworkInterface` as read back. -/
structure RawNetworkInterface where
  network : String
  accessConfigs : List RawAccessConfig
  deriving DecidableEq, Repr

/-- Model of `compute.ServiceAccount` as read back. -/
structure RawServiceAccount where
  scopes : List String
  deriving DecidableEq, Repr

/-- Model of `compute.AttachedDisk` as read back. -/
structure RawAttachedDisk where
  source : String
  deviceName : String
  deriving DecidableEq, Repr

/-- Model of `compute.MetadataItems` as read back (`Value` is a nilable pointer). -/
structure RawMetadataItem where
  key : String
  value : Option String
  deriving DecidableEq, Repr

/-- Model of `compute.Metadata` as read back. -/
structure RawMetadata where
  items : List RawMetadataItem
  fingerprint : String
  deriving DecidableEq, Repr

/-- Model of `compute.Instance` as returned by `Instances.Get`. -/
structure RawInstance where
  name : String
  tags : Option RawTags
  zone : String
  machineType : String
  canIpForward : Bool
  scheduling : Option RawScheduling
  networkInterfaces : List RawNetworkInterface
  serviceAccounts : List RawServiceAccount
  disks : List RawAttachedDisk
  metadata : Option RawMetadata
  deriving DecidableEq, Repr

/-- One entry of the filtered `Addresses.List` response. -/
structure RawAddress where
  name : String
  deriving DecidableEq, Repr

/-- One `Disks.Get` response (only `SourceImage` is consulted). -/
structure RawDisk where
  sourceImage : String
  deriving DecidableEq, Repr

/-- Model of `gce.GCECloud` as `Find` uses it: project/region plus oracles for
`Instances.Get(project, zone, name)`,
`Addresses.List(project, region).Filter(filter)` and
`Disks.Get(project, zone, name)`. -/
structure FindCloud where
  project : String
  region : String
  instancesGet : String → String → String → Except GceErr RawInstance
  addressesList : String → String → String → Except String (List RawAddress)
  disksGet : String → String → String → Except GceErr RawDisk

/-- The network-interface read-back (instance.go lines 69-85): the first
interface yields the network name; a first access config with a non-empty
NAT IP is reverse-looked-up in the address list (zero matches is an
error). -/
def findNetwork (cloud : FindCloud) :
    List RawNetworkInterface → Except GErr (Option Network × Option IPAddress)
  | [] => .ok (none, none)
  | ni :: _ =>
    let network : Option Network := some { Name := some (lastComponent ni.network) }
    match ni.accessConfigs with
    | [] => .ok (network, none)
    | ac :: _ =>
      if ac.natIP = "" then .ok (network, none)
      else
        match cloud.addressesList cloud.project cloud.region ("address eq " ++ ac.natIP) with
        | .error m =>
          .error (.err ("error querying for address \"" ++ ac.natIP ++ "\": " ++ m))
        | .ok [] =>
          .error (.err ("address not found \"" ++ ac.natIP ++ "\": <nil>"))
        | .ok (addr0 :: _) =>
          .ok (network, some { Name := some addr0.name, Address := none })

/-- The read-back of disks at index ≥ 1 (instance.go lines 113-120): each
source URL is parsed and keyed by device name. -/
def findExtraDisks : List RawAttachedDisk → Except GErr (List (String × PersistentDisk))
  | [] => .ok []
  | d :: rest =>
    match parseGoogleCloudURL d.source with
    | .error _ =>
      .error (.err ("unable to parse disk source URL: \"" ++ d.source ++ "\""))
    | .ok url =>
      match findExtraDisks rest with
      | .error er => .error er
      | .ok m => .ok ((d.deviceName, { Name := some url.name }) :: m)

/-- The disk read-back split (instance.go lines 94-121): index 0 is
resolved into a short image spec by querying the disk backend; the rest
become local disk references. -/
def findDisks (cloud : FindCloud) (zone : String) :
    List RawAttachedDisk → Except GErr (Option String × List (String × PersistentDisk))
  | [] => .ok (none, [])
  | d0 :: rest =>
    match cloud.disksGet cloud.project zone (lastComponent d0.source) with
    | .error (.notFound m) =>
      .error (.err ("disk not found \"" ++ d0.source ++ "\": " ++ m))
    | .error (.other m) =>
      .error (.err ("error querying for disk \"" ++ d0.source ++ "\": " ++ m))
    | .ok dk =>
      match ShortenImageURL cloud.project dk.sourceImage with
      | .error m => .error (.err ("error parsing source image URL: " ++ m))
      | .ok image =>
        match findExtraDisks rest with
        | .error er => .error er
        | .ok m => .ok (some image, m)

/-- The metadata read-back (instance.go lines 123-133): entries with a nil
value are skipped (with a warning). -/
def findMetadata : List RawMetadataItem → List (String × Resource)
  | [] => []
  | it :: rest =>
    match it.value with
    | none => findMetadata rest
    | some v => (it.key, Except.ok v) :: findMetadata rest

/-- Model of `Find` (instance.go lines 46-136).  Dereferences `*e.Zone` and
`*e.Name` for the GET; a not-found GET is `(nil, nil)`, i.e. `.ok none`;
any other GET failure is wrapped as "error listing Instances".  On success
the backend-observable fields are read back: slices built by appends stay
nil (`none`) when nothing was appended, while `actual.Disks` is always a
freshly made (non-nil) map. -/
def find (cloud : FindCloud) (e : Instance) : Except GErr (Option Instance) :=
  match e.Zone with
  | none => .error (.fault "Zone")
  | some zone =>
    match e.Name with
    | none => .error (.fault "Name")
    | some name =>
      match cloud.instancesGet cloud.project zone name with
      | .error (.notFound _) => .ok none
      | .error (.other m) => .error (.err ("error listing Instances: " ++ m))
      | .ok r =>
        match r.tags with
        | none => .error (.fault "Tags")
        | some tags =>
          match findNetwork cloud r.networkInterfaces with
          | .error er => .error er
          | .ok (network, ipAddress) =>
            match findDisks cloud zone r.disks with
            | .error er => .error er
            | .ok (image, diskMap) =>
              let scopes := (r.serviceAccounts.flatMap RawServiceAccount.scopes).map scopeToShortForm
              .ok (some
                { Name := some r.name,
                  Network := network,
                  Tags := if tags.items = [] then none else some tags.items,
                  Preemptible := r.scheduling.map RawScheduling.preemptible,
                  Image := image,
                  Disks := some diskMap,
                  CanIPForward := some r.canIpForward,
                  IPAddress := ipAddress,
                  Subnet := none,
                  Scopes := if scopes = [] then none else some scopes,
                  Metadata := r.metadata.map (fun md => findMetadata md.items),
                  Zone := some (lastComponent r.zone),
                  MachineType := some (lastComponent r.machineType),
                  metadataFingerprint := (r.metadata.map RawMetadata.fingerprint).getD "" })

/-! ### Helper lemmas -/

/-- A string with no `'/'` character (a well-formed path component). -/
def slashFree (s : String) : Prop := ∀ c ∈ s.data, c ≠ '/'

instance (s : String) : Decidable (slashFree s) := by
  unfold slashFree; infer_instance

theorem splitSlashAux_no_slash (l : List Char) (acc : List Char)
    (h : ∀ c ∈ l, c ≠ '/') :
    splitSlashAux l acc = [String.mk (acc.reverse ++ l)] := by
  induction l generalizing acc with
  | nil => simp [splitSlashAux]
  | cons c cs ih =>
    have hc : c ≠ '/' := h c (List.mem_cons_self c cs)
    simp only [splitSlashAux, if_neg hc]
    rw [ih (c :: acc) (fun x hx => h x (List.mem_cons_of_mem c hx))]
    simp

theorem splitSlashAux_slash_append (l₁ l₂ : List Char) (acc : List Char)
    (h : ∀ c ∈ l₁, c ≠ '/') :
    splitSlashAux (l₁ ++ '/' :: l₂) acc =
      String.mk (acc.reverse ++ l₁) :: splitSlashAux l₂ [] := by
  induction l₁ generalizing acc with
  | nil => simp [splitSlashAux]
  | cons c cs ih =>
    have hc : c ≠ '/' := h c (List.mem_cons_self c cs)
    simp only [List.cons_append, splitSlashAux, if_neg hc, List.append_eq]
    rw [ih (c :: acc) (fun x hx => h x (List.mem_cons_of_mem c hx))]
    simp

theorem splitSlashAux_ne_nil (l : List Char) (acc : List Char) :
    splitSlashAux l acc ≠ [] := by
  induction l generalizing acc with
  | nil => simp [splitSlashAux]
  | cons c cs ih =>
    by_cases hc : c = '/' <;> simp [splitSlashAux, hc, ih]

theorem splitSlash_ne_nil (s : String) : splitSlash s ≠ [] :=
  splitSlashAux_ne_nil s.data []

theorem splitSlash_no_slash (s : String) (h : slashFree s) : splitSlash s = [s] := by
  unfold splitSlash
  rw [splitSlashAux_no_slash s.data [] h]
  simp

theorem splitSlash_pair (p n : String) (hp : slashFree p) (hn : slashFree n) :
    splitSlash (p ++ "/" ++ n) = [p, n] := by
  unfold splitSlash
  rw [show (p ++ "/" ++ n).data = p.data ++ '/' :: n.data from by
    simp [String.data_append]]
  rw [splitSlashAux_slash_append p.data n.data [] hp]
  rw [splitSlashAux_no_slash n.data [] hn]
  simp

theorem splitSlash_imageURL (p n : String) (hp : slashFree p) (hn : slashFree n) :
    splitSlash (imageURLString p n) =
      ["https:", "", "www.googleapis.com", "compute", "v1", "projects", p,
       "global", "images", n] := by
  unfold splitSlash imageURLString
  rw [show ("https://www.googleapis.com/compute/v1/projects/" ++ p ++
      "/global/images/" ++ n).data =
      "https:".data ++ '/' :: ('/' :: ("www.googleapis.com".data ++ '/' ::
        ("compute".data ++ '/' :: ("v1".data ++ '/' :: ("projects".data ++ '/' ::
          (p.data ++ '/' :: ("global".data ++ '/' :: ("images".data ++ '/' ::
            n.data)))))))) from by
    simp [String.data_append]]
  rw [splitSlashAux_slash_append "https:".data _ [] (by decide)]
  rw [show ('/' :: ("www.googleapis.com".data ++ _)) = [] ++ '/' ::
    ("www.googleapis.com".data ++ '/' :: ("compute".data ++ '/' ::
      ("v1".data ++ '/' :: ("projects".data ++ '/' :: (p.data ++ '/' ::
        ("global".data ++ '/' :: ("images".data ++ '/' :: n.data))))))) from rfl]
  rw [splitSlashAux_slash_append [] _ [] (by decide)]
  rw [splitSlashAux_slash_append "www.googleapis.com".data _ [] (by decide)]
  rw [splitSlashAux_slash_append "compute".data _ [] (by decide)]
  rw [splitSlashAux_slash_append "v1".data _ [] (by decide)]
  rw [splitSlashAux_slash_append "projects".data _ [] (by decide)]
  rw [splitSlashAux_slash_append p.data _ [] hp]
  rw [splitSlashAux_slash_append "global".data _ [] (by decide)]
  rw [splitSlashAux_slash_append "images".data _ [] (by decide)]
  rw [splitSlashAux_no_slash n.data [] hn]
  simp

theorem splitSlash_machineTypeURL (p z n : String)
    (hp : slashFree p) (hz : slashFree z) (hn : slashFree n) :
    splitSlash (BuildMachineTypeURL p z n) =
      ["https:", "", "www.googleapis.com", "compute", "v1", "projects", p,
       "zones", z, "machineTypes", n] := by
  unfold splitSlash BuildMachineTypeURL
  rw [show ("https://www.googleapis.com/compute/v1/projects/" ++ p ++
      "/zones/" ++ z ++ "/machineTypes/" ++ n).data =
      "https:".data ++ '/' :: ('/' :: ("www.googleapis.com".data ++ '/' ::
        ("compute".data ++ '/' :: ("v1".data ++ '/' :: ("projects".data ++ '/' ::
          (p.data ++ '/' :: ("zones".data ++ '/' :: (z.data ++ '/' ::
            ("machineTypes".data ++ '/' :: n.data))))))))) from by
    simp [String.data_append]]
  rw [splitSlashAux_slash_append "https:".data _ [] (by decide)]
  rw [show ('/' :: ("www.googleapis.com".data ++ _)) = [] ++ '/' ::
    ("www.googleapis.com".data ++ '/' :: ("compute".data ++ '/' ::
      ("v1".data ++ '/' :: ("projects".data ++ '/' :: (p.data ++ '/' ::
        ("zones".data ++ '/' :: (z.data ++ '/' ::
          ("machineTypes".data ++ '/' :: n.data)))))))) from rfl]
  rw [splitSlashAux_slash_append [] _ [] (by decide)]
  rw [splitSlashAux_slash_append "www.googleapis.com".data _ [] (by decide)]
  rw [splitSlashAux_slash_append "compute".data _ [] (by decide)]
  rw [splitSlashAux_slash_append "v1".data _ [] (by decide)]
  rw [splitSlashAux_slash_append "projects".data _ [] (by decide)]
  rw [splitSlashAux_slash_append p.data _ [] hp]
  rw [splitSlashAux_slash_append "zones".data _ [] (by decide)]
  rw [splitSlashAux_slash_append z.data _ [] hz]
  rw [splitSlashAux_slash_append "machineTypes".data _ [] (by decide)]
  rw [splitSlashAux_no_slash n.data [] hn]
  simp

/-! ### C5: scope alias round trips -/

/-- C5: for every one of the 7 defined scope aliases `a`,
`scopeToShortForm (expandScopeAlias a) = a`; for every one of the 7
corresponding long-form URIs `u`, `expandScopeAlias (scopeToShortForm u) = u`;
and every string that is neither a defined alias nor a defined URI passes
through both `expandScopeAlias` and `scopeToShortForm` unchanged. -/
theorem scope_alias_table_roundtrip :
    (∀ a ∈ scopeAliases.map Prod.fst, scopeToShortForm (expandScopeAlias a) = a) ∧
    (∀ u ∈ scopeAliases.map Prod.snd, expandScopeAlias (scopeToShortForm u) = u) ∧
    (∀ s, s ∉ scopeAliases.map Prod.fst → s ∉ scopeAliases.map Prod.snd →
      expandScopeAlias s = s ∧ scopeToShortForm s = s) := by
  refine ⟨by decide, by decide, ?_⟩
  intro s h1 h2
  simp only [scopeAliases, List.map_cons, List.map_nil, List.mem_cons,
    List.not_mem_nil, or_false, not_or] at h1 h2
  obtain ⟨a1, a2, a3, a4, a5, a6, a7⟩ := h1
  obtain ⟨u1, u2, u3, u4, u5, u6, u7⟩ := h2
  constructor
  · simp [expandScopeAlias, a1, a2, a3, a4, a5, a6, a7]
  · simp [scopeToShortForm, scopeAliases, lookupByValue,
      Ne.symm u1, Ne.symm u2, Ne.symm u3, Ne.symm u4, Ne.symm u5,
      Ne.symm u6, Ne.symm u7]

/-- Witness for C5: a concrete alias round trip, a concrete URI round
trip, and a concrete unknown-string passthrough. -/
theorem scope_alias_table_roundtrip_witness :
    scopeToShortForm (expandScopeAlias "storage-ro") = "storage-ro" ∧
    expandScopeAlias (scopeToShortForm "https://www.googleapis.com/auth/monitoring") =
      "https://www.googleapis.com/auth/monitoring" ∧
    expandScopeAlias "cloud-platform" = "cloud-platform" ∧
    scopeToShortForm "cloud-platform" = "cloud-platform" := by
  refine ⟨?_, ?_, ?_, ?_⟩
  · exact scope_alias_table_roundtrip.1 "storage-ro" (by decide)
  · exact scope_alias_table_roundtrip.2.1 _ (by decide)
  · exact (scope_alias_table_roundtrip.2.2 "cloud-platform" (by decide) (by decide)).1
  · exact (scope_alias_table_roundtrip.2.2 "cloud-platform" (by decide) (by decide)).2

/-! ### C6: URL build / shorten round trips -/

/-- C6: parsing the URL built by `BuildMachineTypeURL p z n` yields name
`n`; `ShortenImageURL p (BuildImageURL p n)` yields `n` for a bare image
name; and `ShortenImageURL p2 (BuildImageURL p2 (p1 ++ "/" ++ n))` yields
`p1/n` when the spec names a project `p1` different from the default
project `p2` (all for slash-free path components). -/
theorem url_build_shorten_roundtrip :
    (∀ p z n, slashFree p → slashFree z → slashFree n →
      ∃ u, parseGoogleCloudURL (BuildMachineTypeURL p z n) = .ok u ∧ u.name = n) ∧
    (∀ p n, slashFree p → slashFree n →
      ∃ url, BuildImageURL p n = .ok url ∧ ShortenImageURL p url = .ok n) ∧
    (∀ p1 p2 n, slashFree p1 → slashFree n → p1 ≠ p2 →
      ∃ url, BuildImageURL p2 (p1 ++ "/" ++ n) = .ok url ∧
        ShortenImageURL p2 url = .ok (p1 ++ "/" ++ n)) := by
  refine ⟨?_, ?_, ?_⟩
  · intro p z n hp hz hn
    refine ⟨{ project := p, zone := z, typ := "machineTypes", name := n }, ?_, rfl⟩
    unfold parseGoogleCloudURL
    rw [splitSlash_machineTypeURL p z n hp hz hn]
    rfl
  · intro p n hp hn
    refine ⟨imageURLString p n, ?_, ?_⟩
    · unfold BuildImageURL
      rw [splitSlash_no_slash n hn]
    · unfold ShortenImageURL parseGoogleCloudURL
      rw [splitSlash_imageURL p n hp hn]
      simp
  · intro p1 p2 n hp1 hn hne
    refine ⟨imageURLString p1 n, ?_, ?_⟩
    · unfold BuildImageURL
      rw [splitSlash_pair p1 n hp1 hn]
    · unfold ShortenImageURL parseGoogleCloudURL
      rw [splitSlash_imageURL p1 n hp1 hn]
      simp [hne]

/-- Witness for C6: the three round trips at concrete slash-free inputs. -/
theorem url_build_shorten_roundtrip_witness :
    (∃ u, parseGoogleCloudURL (BuildMachineTypeURL "proj" "us-central1-a" "n1-standard-2") = .ok u ∧
      u.name = "n1-standard-2") ∧
    (∃ url, BuildImageURL "proj" "debian-8" = .ok url ∧
      ShortenImageURL "proj" url = .ok "debian-8") ∧
    (∃ url, BuildImageURL "proj-b" ("proj-a" ++ "/" ++ "debian-8") = .ok url ∧
      ShortenImageURL "proj-b" url = .ok ("proj-a" ++ "/" ++ "debian-8")) :=
  ⟨url_build_shorten_roundtrip.1 "proj" "us-central1-a" "n1-standard-2"
      (by decide) (by decide) (by decide),
   url_build_shorten_roundtrip.2.1 "proj" "debian-8" (by decide) (by decide),
   url_build_shorten_roundtrip.2.2 "proj-a" "proj-b" "debian-8"
      (by decide) (by decide) (by decide)⟩

/-! ### C7: Find on an absent identity -/

/-- C7: for every identity (Name, Zone) for which the backend reports the
instance as not found, `find` returns `.ok none` — a nil actual task and
no error — while any other backend failure during the get is returned as
an error. -/
theorem find_absent_vs_failure (cloud : FindCloud) (e : Instance) (zone name : String)
    (hz : e.Zone = some zone) (hn : e.Name = some name) :
    (∀ m, cloud.instancesGet cloud.project zone name = .error (.notFound m) →
      find cloud e = .ok none) ∧
    (∀ m, cloud.instancesGet cloud.project zone name = .error (.other m) →
      find cloud e = .error (.err ("error listing Instances: " ++ m))) := by
  constructor
  · intro m h
    simp [find, hz, hn, h]
  · intro m h
    simp [find, hz, hn, h]

/-- A backend on which every instance GET reports not-found. -/
def cloudAbsent : FindCloud :=
  { project := "proj", region := "us-central1",
    instancesGet := fun _ _ _ => .error (.notFound "googleapi: Error 404"),
    addressesList := fun _ _ _ => .ok [],
    disksGet := fun _ _ _ => .error (.notFound "googleapi: Error 404") }

/-- A backend on which every instance GET fails with a non-404 error. -/
def cloudDown : FindCloud :=
  { cloudAbsent with instancesGet := fun _ _ _ => .error (.other "backend unavailable") }

/-- A desired identity to look up. -/
def eFind : Instance :=
  { zeroInstance with Name := some "instance-1", Zone := some "us-central1-a" }

/-- Witness for C7: the two branches at concrete backends. -/
theorem find_absent_vs_failure_witness :
    find cloudAbsent eFind = .ok none ∧
    find cloudDown eFind = .error (.err "error listing Instances: backend unavailable") :=
  ⟨(find_absent_vs_failure cloudAbsent eFind "us-central1-a" "instance-1" rfl rfl).1 _ rfl,
   (find_absent_vs_failure cloudDown eFind "us-central1-a" "instance-1" rfl rfl).2 _ rfl⟩

/-! ### C8: isZero -/

/-- C8: `isZero` returns true on a freshly constructed empty Instance
diff, and for every single field of the Instance shape, setting only that
field to a non-zero value makes `isZero` return false. -/
theorem isZero_spec :
    Instance.isZero zeroInstance = true ∧
    (∀ v, Instance.isZero { zeroInstance with Name := some v } = false) ∧
    (∀ v, Instance.isZero { zeroInstance with Network := some v } = false) ∧
    (∀ v, Instance.isZero { zeroInstance with Tags := some v } = false) ∧
    (∀ v, Instance.isZero { zeroInstance with Preemptible := some v } = false) ∧
    (∀ v, Instance.isZero { zeroInstance with Image := some v } = false) ∧
    (∀ v, Instance.isZero { zeroInstance with Disks := some v } = false) ∧
    (∀ v, Instance.isZero { zeroInstance with CanIPForward := some v } = false) ∧
    (∀ v, Instance.isZero { zeroInstance with IPAddress := some v } = false) ∧
    (∀ v, Instance.isZero { zeroInstance with Subnet := some v } = false) ∧
    (∀ v, Instance.isZero { zeroInstance with Scopes := some v } = false) ∧
    (∀ v, Instance.isZero { zeroInstance with Metadata := some v } = false) ∧
    (∀ v, Instance.isZero { zeroInstance with Zone := some v } = false) ∧
    (∀ v, Instance.isZero { zeroInstance with MachineType := some v } = false) ∧
    (∀ v, v ≠ "" → Instance.isZero { zeroInstance with metadataFingerprint := v } = false) := by
  refine ⟨by decide, fun v => ?_, fun v => ?_, fun v => ?_, fun v => ?_,
    fun v => ?_, fun v => ?_, fun v => ?_, fun v => ?_, fun v => ?_,
    fun v => ?_, fun v => ?_, fun v => ?_, fun v => ?_, fun v hv => ?_⟩
  all_goals simp_all [Instance.isZero, zeroInstance]

/-- Witness for C8: the fingerprint conjunct at a concrete non-empty
token, plus a non-nil-but-empty collection (non-zero in the DeepEqual
sense) at a concrete field. -/
theorem isZero_spec_witness :
    Instance.isZero { zeroInstance with metadataFingerprint := "abc123" } = false ∧
    Instance.isZero { zeroInstance with Tags := some [] } = false :=
  ⟨isZero_spec.2.2.2.2.2.2.2.2.2.2.2.2.2.2 "abc123" (by decide),
   isZero_spec.2.2.2.1 []⟩

/-! ### C3: waitCompletion -/

/-- Every poll response in the list is a fetched operation still in a
non-terminal "PENDING" or "RUNNING" status. -/
def pendingOnly (polls : List (Except String ComputeOperation)) : Prop :=
  ∀ q ∈ polls, ∃ st, q = Except.ok st ∧ (st.status = "PENDING" ∨ st.status = "RUNNING")

theorem waitCompletion_skip (pre l : List (Except String ComputeOperation))
    (h : ∀ q ∈ pre, ∃ st, q = Except.ok st ∧ st.status ≠ "DONE") :
    waitCompletion (pre ++ l) = waitCompletion l := by
  induction pre with
  | nil => rfl
  | cons q qs ih =>
    obtain ⟨st, rfl, hst⟩ := h q (List.mem_cons_self q qs)
    simp only [List.cons_append, waitCompletion, if_neg hst]
    exact ih (fun x hx => h x (List.mem_cons_of_mem _ hx))

theorem pendingOnly_ne_done (polls : List (Except String ComputeOperation))
    (h : pendingOnly polls) :
    ∀ q ∈ polls, ∃ st, q = Except.ok st ∧ st.status ≠ "DONE" := by
  intro q hq
  obtain ⟨st, rfl, hst⟩ := h q hq
  exact ⟨st, rfl, by rcases hst with h' | h' <;> simp [h']⟩

/-- Counterexample for C3: a first poll that is terminal ("DONE") and
carries an *empty* error list (`Error` attached, zero entries) does not
make `waitCompletion` return success: the Go code evaluates
`status.Error.Errors[0]` and crashes with an index-out-of-range. -/
theorem waitCompletion_empty_error_list_crash :
    waitCompletion [Except.ok { status := "DONE", error := some [], warnings := none }] ≠
      some WaitOutcome.ok ∧
    waitCompletion [Except.ok { status := "DONE", error := some [], warnings := none }] =
      some WaitOutcome.crash := by
  decide

/-- C3 (amended): `waitCompletion` returns success the first time the
polled status is terminal with *no attached error record* (an attached
record with an empty list crashes instead); when the terminal operation's
error list is non-empty it returns an error containing the first listed
error's message; and it never returns while the status remains "PENDING"
or "RUNNING". -/
theorem waitCompletion_spec :
    (∀ pre op rest, pendingOnly pre → op.status = "DONE" → op.error = none →
      waitCompletion (pre ++ Except.ok op :: rest) = some WaitOutcome.ok) ∧
    (∀ pre op rest e0 es, pendingOnly pre → op.status = "DONE" →
      op.error = some (e0 :: es) →
      waitCompletion (pre ++ Except.ok op :: rest) =
        some (WaitOutcome.err ("operation failed: " ++ e0.message))) ∧
    (∀ polls, pendingOnly polls → waitCompletion polls = none) := by
  refine ⟨?_, ?_, ?_⟩
  · intro pre op rest hpre hdone herr
    rw [waitCompletion_skip pre _ (pendingOnly_ne_done pre hpre)]
    simp [waitCompletion, hdone, checkDone, herr]
  · intro pre op rest e0 es hpre hdone herr
    rw [waitCompletion_skip pre _ (pendingOnly_ne_done pre hpre)]
    simp [waitCompletion, hdone, checkDone, herr]
  · intro polls h
    induction polls with
    | nil => rfl
    | cons q qs ih =>
      obtain ⟨st, rfl, hst⟩ := h q (List.mem_cons_self q qs)
      have hne : st.status ≠ "DONE" := by rcases hst with h' | h' <;> simp [h']
      simp only [waitCompletion, if_neg hne]
      exact ih (fun x hx => h x (List.mem_cons_of_mem _ hx))

/-- Witness for C3 (amended): the three behaviours at concrete poll
sequences. -/
theorem waitCompletion_spec_witness :
    waitCompletion [Except.ok { status := "PENDING", error := none, warnings := none },
        Except.ok { status := "DONE", error := none, warnings := some ["w"] }] =
      some WaitOutcome.ok ∧
    waitCompletion [Except.ok { status := "RUNNING", error := none, warnings := none },
        Except.ok { status := "DONE", error := some [⟨"quota exceeded"⟩, ⟨"second"⟩],
                    warnings := none }] =
      some (WaitOutcome.err ("operation failed: " ++ "quota exceeded")) ∧
    waitCompletion [Except.ok { status := "PENDING", error := none, warnings := none },
        Except.ok { status := "RUNNING", error := none, warnings := none }] = none := by
  refine ⟨?_, ?_, ?_⟩
  · exact waitCompletion_spec.1
      [Except.ok { status := "PENDING", error := none, warnings := none }]
      { status := "DONE", error := none, warnings := some ["w"] } []
      (by intro q hq; simp at hq; exact ⟨_, hq, by simp [hq]⟩) rfl rfl
  · exact waitCompletion_spec.2.1
      [Except.ok { status := "RUNNING", error := none, warnings := none }]
      { status := "DONE", error := some [⟨"quota exceeded"⟩, ⟨"second"⟩],
        warnings := (none : Option (List String)) } []
      ⟨"quota exceeded"⟩ [⟨"second"⟩]
      (by intro q hq; simp at hq; exact ⟨_, hq, by simp [hq]⟩) rfl rfl
  · exact waitCompletion_spec.2.2 _
      (by intro q hq; simp at hq
          rcases hq with hq | hq <;> exact ⟨_, hq, by simp [hq]⟩)

/-! ### Inversion of a successful mapToGCE -/

theorem mapToGCE_ok_inv (project : String)
    (resolver : IPAddress → Except String (Option String)) (e : Instance)
    (i : ComputeInstance) (h : mapToGCE project resolver e = .ok i) :
    ∃ zone image imageURL extraDisks nis its canIp machineType name,
      e.Zone = some zone ∧ e.Image = some image ∧
      BuildImageURL project image = .ok imageURL ∧
      attachDisks project (e.Disks.getD []) = .ok extraDisks ∧
      mkNetworkInterfaces project resolver e = .ok nis ∧
      renderMetadataItems (e.Metadata.getD []) = .ok its ∧
      e.CanIPForward = some canIp ∧ e.MachineType = some machineType ∧
      e.Name = some name ∧
      i = { canIpForward := canIp, disks := bootDisk imageURL :: extraDisks,
            machineType := BuildMachineTypeURL project zone machineType,
            metadata := { items := its, fingerprint := "" }, name := name,
            networkInterfaces := nis, scheduling := mkScheduling e.Preemptible,
            serviceAccounts := mkServiceAccounts e, tags := e.Tags } := by
  cases hz : e.Zone with
  | none => simp [mapToGCE, hz] at h
  | some zone =>
  cases him : e.Image with
  | none => simp [mapToGCE, hz, him] at h
  | some image =>
  cases hbu : BuildImageURL project image with
  | error er => simp [mapToGCE, hz, him, hbu] at h
  | ok imageURL =>
  cases had : attachDisks project (e.Disks.getD []) with
  | error er => simp [mapToGCE, hz, him, hbu, had] at h
  | ok extraDisks =>
  cases hni : mkNetworkInterfaces project resolver e with
  | error er => simp [mapToGCE, hz, him, hbu, had, hni] at h
  | ok nis =>
  cases hmd : renderMetadataItems (e.Metadata.getD []) with
  | error er => simp [mapToGCE, hz, him, hbu, had, hni, hmd] at h
  | ok its =>
  cases hcan : e.CanIPForward with
  | none => simp [mapToGCE, hz, him, hbu, had, hni, hmd, hcan] at h
  | some canIp =>
  cases hmt : e.MachineType with
  | none => simp [mapToGCE, hz, him, hbu, had, hni, hmd, hcan, hmt] at h
  | some machineType =>
  cases hnm : e.Name with
  | none => simp [mapToGCE, hz, him, hbu, had, hni, hmd, hcan, hmt, hnm] at h
  | some name =>
    refine ⟨zone, image, imageURL, extraDisks, nis, its, canIp, machineType, name,
      rfl, rfl, hbu, rfl, rfl, rfl, rfl, rfl, rfl, ?_⟩
    simp only [mapToGCE, hz, him, hbu, had, hni, hmd, hcan, hmt, hnm] at h
    exact (Except.ok.inj h).symm

theorem attachDisks_forall₂ (project : String) :
    ∀ (l : List (String × PersistentDisk)) (r : List AttachedDisk),
      attachDisks project l = .ok r →
      List.Forall₂ (fun (ad : AttachedDisk) (kv : String × PersistentDisk) =>
        ad.deviceName = kv.1 ∧ ad.autoDelete = false ∧ ad.boot = false) r l := by
  intro l
  induction l with
  | nil =>
    intro r h
    simp only [attachDisks] at h
    rw [← Except.ok.inj h]
    exact List.Forall₂.nil
  | cons kv rest ih =>
    obtain ⟨name, disk⟩ := kv
    intro r h
    simp only [attachDisks] at h
    cases hurl : PersistentDisk.URL project disk with
    | error er => rw [hurl] at h; exact absurd h (by simp)
    | ok url =>
      rw [hurl] at h
      cases hrest : attachDisks project rest with
      | error er => rw [hrest] at h; exact absurd h (by simp)
      | ok ds =>
        rw [hrest] at h
        rw [← Except.ok.inj h]
        exact List.Forall₂.cons ⟨rfl, rfl, rfl⟩ (ih ds hrest)

/-! ### C10: no network interface without an IPAddress -/

/-- C10: for every desired instance whose IPAddress field is nil,
`mapToGCE` produces a payload whose network-interface list is empty, and
the Network and Subnet fields are consulted only when IPAddress is
non-nil (changing them does not change the mapping at all), so an
instance with a Network but no IPAddress is mapped with no network
interface. -/
theorem mapToGCE_nil_ip_no_interfaces (project : String)
    (resolver : IPAddress → Except String (Option String)) (e : Instance)
    (h : e.IPAddress = none) :
    (∀ i, mapToGCE project resolver e = .ok i → i.networkInterfaces = []) ∧
    (∀ nw sn, mapToGCE project resolver { e with Network := nw, Subnet := sn } =
      mapToGCE project resolver e) := by
  have hni : mkNetworkInterfaces project resolver e = .ok [] := by
    simp [mkNetworkInterfaces, h]
  constructor
  · intro i hi
    obtain ⟨zone, image, imageURL, extraDisks, nis, its, canIp, machineType, name,
      _, _, _, _, hni', _, _, _, _, hieq⟩ :=
        mapToGCE_ok_inv project resolver e i hi
    rw [hni] at hni'
    rw [hieq]
    simpa using (Except.ok.inj hni').symm
  · intro nw sn
    simp [mapToGCE, mkNetworkInterfaces, mkServiceAccounts, h]

/-- A well-formed sample desired instance (no IP address, no extra
disks). -/
def eSample : Instance :=
  { zeroInstance with
    Name := some "instance-1"
    Zone := some "us-central1-a"
    Image := some "debian-8"
    CanIPForward := some false
    MachineType := some "n1-standard-1" }

/-- The instance `eSample` with a Network reference but no IPAddress. -/
def eSampleNet : Instance := { eSample with Network := some { Name := some "net-1" } }

/-- The payload `mapToGCE` produces for `eSampleNet`. -/
def iSampleNet : ComputeInstance :=
  { canIpForward := false,
    disks := [bootDisk (imageURLString "proj" "debian-8")],
    machineType := BuildMachineTypeURL "proj" "us-central1-a" "n1-standard-1",
    metadata := { items := [], fingerprint := "" },
    name := "instance-1", networkInterfaces := [],
    scheduling := mkScheduling none, serviceAccounts := [], tags := none }

/-- Witness for C10: a concrete instance with a Network but nil IPAddress
maps to a payload with no network interface. -/
theorem mapToGCE_nil_ip_no_interfaces_witness :
    iSampleNet.networkInterfaces = [] ∧
    mapToGCE "proj" gceIPResolver eSampleNet = .ok iSampleNet :=
  ⟨(mapToGCE_nil_ip_no_interfaces "proj" gceIPResolver eSampleNet rfl).1 iSampleNet rfl,
   rfl⟩

/-! ### C4: the create path -/

/-- C4: for every desired instance applied to a new identity
(`actual == nil`), `RenderGCE` issues exactly one create (insert) call,
and its payload's attached-disk list has a boot disk at index 0 with
device name "persistent-disks-0" (boot=true, auto-delete=true) plus
exactly one additional entry per entry of the Disks map, with device name
equal to that entry's map key and auto-delete=false. -/
theorem renderGCE_create (t : GCEAPITarget) (e changes : Instance) (zone : String)
    (i : ComputeInstance)
    (hz : e.Zone = some zone)
    (hmap : mapToGCE t.project gceIPResolver e = .ok i) :
    (RenderGCE t none e changes).calls = [RCall.insert t.project zone i] ∧
    ∃ bd rest, i.disks = bd :: rest ∧
      bd.boot = true ∧ bd.deviceName = "persistent-disks-0" ∧ bd.index = 0 ∧
      bd.autoDelete = true ∧
      List.Forall₂ (fun (ad : AttachedDisk) (kv : String × PersistentDisk) =>
        ad.deviceName = kv.1 ∧ ad.autoDelete = false ∧ ad.boot = false)
        rest (e.Disks.getD []) := by
  constructor
  · cases hins : t.insertResult t.project zone i <;>
      simp [RenderGCE, hz, hmap, hins]
  · obtain ⟨zone', image, imageURL, extraDisks, nis, its, canIp, machineType, name,
      _, _, _, had, _, _, _, _, _, hieq⟩ :=
        mapToGCE_ok_inv t.project gceIPResolver e i hmap
    exact ⟨bootDisk imageURL, extraDisks, by rw [hieq], rfl, rfl, rfl, rfl,
      attachDisks_forall₂ t.project _ _ had⟩

/-- The backend target used by the concrete render scenarios: every
insert and set-metadata call succeeds, and the single poll reports a
terminal operation with no errors. -/
def opDone : ComputeOperation := { status := "DONE", error := none, warnings := none }

def tSample : GCEAPITarget :=
  { project := "proj",
    insertResult := fun _ _ _ => .ok (),
    setMetadataResult := fun _ _ _ _ => .ok opDone,
    polls := [Except.ok opDone] }

/-- The instance `eSample` with one additional data disk. -/
def eSampleDisks : Instance :=
  { eSample with Disks := some [("data-1", { Name := some "disk-1" })] }

/-- The payload `mapToGCE` produces for `eSampleDisks`. -/
def iSampleDisks : ComputeInstance :=
  { canIpForward := false,
    disks := [bootDisk (imageURLString "proj" "debian-8"),
      { source := "https://www.googleapis.com/compute/v1/projects/proj/disks/disk-1",
        initializeParams := none, boot := false, deviceName := "data-1", index := 0,
        autoDelete := false, mode := "READ_WRITE", typ := "" }],
    machineType := BuildMachineTypeURL "proj" "us-central1-a" "n1-standard-1",
    metadata := { items := [], fingerprint := "" },
    name := "instance-1", networkInterfaces := [],
    scheduling := mkScheduling none, serviceAccounts := [], tags := none }

/-- Witness for C4: the create pass at a concrete instance with one data
disk. -/
theorem renderGCE_create_witness :
    (RenderGCE tSample none eSampleDisks zeroInstance).calls =
      [RCall.insert tSample.project "us-central1-a" iSampleDisks] ∧
    ∃ bd rest, iSampleDisks.disks = bd :: rest ∧
      bd.boot = true ∧ bd.deviceName = "persistent-disks-0" ∧ bd.index = 0 ∧
      bd.autoDelete = true ∧
      List.Forall₂ (fun (ad : AttachedDisk) (kv : String × PersistentDisk) =>
        ad.deviceName = kv.1 ∧ ad.autoDelete = false ∧ ad.boot = false)
        rest (eSampleDisks.Disks.getD []) :=
  renderGCE_create tSample eSampleDisks zeroInstance "us-central1-a" iSampleDisks rfl rfl

/-! ### C2: the metadata-only update path -/

/-- C2: for every existing instance and every diff whose only set field is
Metadata, `RenderGCE` issues exactly one set-metadata backend call whose
payload carries the fingerprint captured by the most recent Find (the
`metadataFingerprint` of the actual task `a0`), blocks on the operation
poller until the operation completes (never-completing polls mean the
pass never returns), and on success sets `changes.Metadata` to nil —
leaving the zero diff — and returns no error. -/
theorem renderGCE_metadata_only (t : GCEAPITarget) (a0 e : Instance)
    (m : List (String × Resource)) (zone : String) (i : ComputeInstance)
    (op : ComputeOperation)
    (hz : e.Zone = some zone)
    (hmap : mapToGCE t.project gceIPResolver e = .ok i)
    (hset : t.setMetadataResult t.project zone i.name
      { items := i.metadata.items, fingerprint := a0.metadataFingerprint } = .ok op) :
    (waitCompletion t.polls = some WaitOutcome.ok →
      RenderGCE t (some a0) e { zeroInstance with Metadata := some m } =
        { result := some (.ok ()),
          calls := [RCall.setMetadata t.project zone i.name
            { items := i.metadata.items, fingerprint := a0.metadataFingerprint }],
          changes := zeroInstance }) ∧
    (waitCompletion t.polls = none →
      (RenderGCE t (some a0) e { zeroInstance with Metadata := some m }).result =
        none) := by
  have hch : ({ { zeroInstance with Metadata := some m } with Metadata := none } :
      Instance) = zeroInstance := rfl
  have hzz : Instance.isZero zeroInstance = true := by decide
  constructor
  · intro hwait
    simp [RenderGCE, hz, hmap, hset, hwait, hch, hzz]
  · intro hwait
    simp [RenderGCE, hz, hmap, hset, hwait]

/-- An existing actual task whose last Find captured fingerprint
"fp-42". -/
def aSample : Instance :=
  { zeroInstance with Name := some "instance-1", metadataFingerprint := "fp-42" }

/-- The payload `mapToGCE` produces for `eSample`. -/
def iSample : ComputeInstance :=
  { canIpForward := false,
    disks := [bootDisk (imageURLString "proj" "debian-8")],
    machineType := BuildMachineTypeURL "proj" "us-central1-a" "n1-standard-1",
    metadata := { items := [], fingerprint := "" },
    name := "instance-1", networkInterfaces := [],
    scheduling := mkScheduling none, serviceAccounts := [], tags := none }

/-- Witness for C2: the metadata-only pass at a concrete existing
instance. -/
theorem renderGCE_metadata_only_witness :
    RenderGCE tSample (some aSample) eSample
        { zeroInstance with Metadata := some [("startup-script", Except.ok "echo hi")] } =
      { result := some (.ok ()),
        calls := [RCall.setMetadata "proj" "us-central1-a" "instance-1"
          { items := [], fingerprint := "fp-42" }],
        changes := zeroInstance } :=
  (renderGCE_metadata_only tSample aSample eSample
    [("startup-script", Except.ok "echo hi")] "us-central1-a" iSample opDone
    rfl rfl rfl).1 rfl

/-! ### C1: metadata plus another field -/

/-- The mixed diff of the C1 scenario: a metadata change plus a machine
type change. -/
def chMixed : Instance :=
  { zeroInstance with
    Metadata := some [("k", Except.ok "v")]
    MachineType := some "n1-standard-2" }

/-- Counterexample for C1: with a diff carrying Metadata plus MachineType
against an existing instance, `RenderGCE` does fail with the
cannot-apply-changes error naming the remaining field, but the failing
pass is *not* free of partial updates: it has already issued the
set-metadata call (the call trace is non-empty), so the backend state is
changed by the failing pass. -/
theorem renderGCE_metadata_plus_other_counterexample :
    (RenderGCE tSample (some aSample) eSample chMixed).result =
      some (.error (.cannotApply
        { zeroInstance with MachineType := some "n1-standard-2" })) ∧
    (RenderGCE tSample (some aSample) eSample chMixed).calls ≠ [] := by
  constructor
  · decide
  · decide

/-- C1 (amended): for every existing instance, applying a diff whose
Metadata field is set and that also has any other field set causes
`RenderGCE` to fail with the unsupported-change error carrying the
remaining (post-metadata) fields — but only after applying the metadata
update: the failing pass issues exactly one set-metadata call (the
partial metadata update) and no other mutating call, so the backend
metadata is updated while every other field is left untouched. -/
theorem renderGCE_metadata_plus_other (t : GCEAPITarget) (a0 e changes : Instance)
    (m : List (String × Resource)) (zone : String) (i : ComputeInstance)
    (op : ComputeOperation)
    (hz : e.Zone = some zone)
    (hmap : mapToGCE t.project gceIPResolver e = .ok i)
    (hmd : changes.Metadata = some m)
    (hrem : Instance.isZero { changes with Metadata := none } = false)
    (hset : t.setMetadataResult t.project zone i.name
      { items := i.metadata.items, fingerprint := a0.metadataFingerprint } = .ok op)
    (hwait : waitCompletion t.polls = some WaitOutcome.ok) :
    RenderGCE t (some a0) e changes =
      { result := some (.error (.cannotApply { changes with Metadata := none })),
        calls := [RCall.setMetadata t.project zone i.name
          { items := i.metadata.items, fingerprint := a0.metadataFingerprint }],
        changes := { changes with Metadata := none } } := by
  simp [RenderGCE, hz, hmap, hmd, hset, hwait, hrem]

/-- Witness for C1 (amended): the mixed-diff pass at the concrete C1
scenario. -/
theorem renderGCE_metadata_plus_other_witness :
    RenderGCE tSample (some aSample) eSample chMixed =
      { result := some (.error (.cannotApply { chMixed with Metadata := none })),
        calls := [RCall.setMetadata "proj" "us-central1-a" "instance-1"
          { items := [], fingerprint := "fp-42" }],
        changes := { chMixed with Metadata := none } } :=
  renderGCE_metadata_plus_other tSample aSample eSample chMixed
    [("k", Except.ok "v")] "us-central1-a" iSample opDone
    rfl rfl rfl (by decide) rfl rfl

/-! ### C9: the nil-pointer precondition of mapToGCE -/

/-- The precondition under which `mapToGCE` can never hit a nil
dereference or a fatal exit: the five unconditionally dereferenced
pointer fields are non-nil, the image spec has at most two path
components, every referenced disk has a name, a named Network is present
whenever IPAddress is set, and a referenced Subnet has a name. -/
def mapPre (e : Instance) : Prop :=
  e.Zone.isSome ∧ e.Image.isSome ∧ e.CanIPForward.isSome ∧
  e.MachineType.isSome ∧ e.Name.isSome ∧
  (splitSlash (e.Image.getD "")).length ≤ 2 ∧
  (∀ kv ∈ e.Disks.getD [], (Prod.snd kv).Name.isSome) ∧
  (e.IPAddress.isSome → ∃ nw, e.Network = some nw ∧ nw.Name.isSome) ∧
  (∀ s, e.Subnet = some s → s.Name.isSome)

theorem buildImageURL_ok (project img : String)
    (h : (splitSlash img).length ≤ 2) : ∃ u, BuildImageURL project img = .ok u := by
  unfold BuildImageURL
  cases hs : splitSlash img with
  | nil => exact absurd hs (splitSlash_ne_nil img)
  | cons a t =>
    cases t with
    | nil => exact ⟨_, rfl⟩
    | cons b t2 =>
      cases t2 with
      | nil => exact ⟨_, rfl⟩
      | cons c t3 =>
        rw [hs] at h
        simp at h

theorem attachDisks_ok (project : String) :
    ∀ l : List (String × PersistentDisk),
      (∀ kv ∈ l, (Prod.snd kv).Name.isSome) →
      ∃ r, attachDisks project l = .ok r := by
  intro l
  induction l with
  | nil => exact fun _ => ⟨[], rfl⟩
  | cons kv rest ih =>
    intro h
    obtain ⟨name, disk⟩ := kv
    obtain ⟨n, hn⟩ := Option.isSome_iff_exists.mp (h _ (List.mem_cons_self _ rest))
    obtain ⟨ds, hds⟩ := ih (fun x hx => h x (List.mem_cons_of_mem _ hx))
    have hn' : disk.Name = some n := hn
    simp only [attachDisks, PersistentDisk.URL, hn', hds]
    exact ⟨_, rfl⟩

theorem renderMetadataItems_err :
    ∀ (l : List (String × Resource)) (er : GErr),
      renderMetadataItems l = .error er → ∃ m, er = GErr.err m := by
  intro l
  induction l with
  | nil => intro er h; simp [renderMetadataItems] at h
  | cons kv rest ih =>
    obtain ⟨key, r⟩ := kv
    intro er h
    cases r with
    | error m =>
      simp only [renderMetadataItems] at h
      exact ⟨_, (Except.error.inj h).symm⟩
    | ok v =>
      simp only [renderMetadataItems] at h
      cases hrest : renderMetadataItems rest with
      | error er2 =>
        rw [hrest] at h
        obtain ⟨m, hm⟩ := ih er2 hrest
        exact ⟨m, (Except.error.inj h).symm.trans hm⟩
      | ok its => rw [hrest] at h; exact absurd h (by simp)

theorem mkNetworkInterfaces_err (project : String)
    (resolver : IPAddress → Except String (Option String)) (e : Instance)
    (hnw : e.IPAddress.isSome → ∃ nw, e.Network = some nw ∧ nw.Name.isSome)
    (hsn : ∀ s, e.Subnet = some s → s.Name.isSome) :
    ∀ er, mkNetworkInterfaces project resolver e = .error er → ∃ m, er = GErr.err m := by
  intro er h
  cases hip : e.IPAddress with
  | none => simp [mkNetworkInterfaces, hip] at h
  | some ip =>
    obtain ⟨nw, hnw', hnwn⟩ := hnw (by simp [hip])
    obtain ⟨nn, hnn⟩ := Option.isSome_iff_exists.mp hnwn
    simp only [mkNetworkInterfaces, hip] at h
    cases hres : resolver ip with
    | error m => rw [hres] at h; exact ⟨_, (Except.error.inj h).symm⟩
    | ok addr =>
      rw [hres] at h
      cases addr with
      | none => exact ⟨_, (Except.error.inj h).symm⟩
      | some a =>
        rw [show Network.URL project e.Network =
            .ok ("https://www.googleapis.com/compute/v1/projects/" ++ project ++
              "/global/networks/" ++ nn) from by
          simp [Network.URL, hnw', hnn]] at h
        cases hsub : e.Subnet with
        | none => simp [hsub] at h
        | some s =>
          obtain ⟨sn, hsn'⟩ := Option.isSome_iff_exists.mp (hsn s hsub)
          simp [hsub, hsn'] at h

/-- The instance of the C9 counterexample: the five claimed pointer
fields are all set, an IPAddress reference is present, but Network is
nil. -/
def eNoNetwork : Instance :=
  { eSample with IPAddress := some { Name := some "ip-1", Address := some "1.2.3.4" } }

/-- Counterexample for C9: `eNoNetwork` satisfies the claimed precondition
(Zone, Image, CanIPForward, MachineType, Name all non-nil), yet
`mapToGCE` is not defined on it: it dereferences the nil Network pointer
(`e.Network.URL(project)` at instance.go line 256), so the claimed
precondition does not suffice for the mapping to be defined. -/
theorem mapToGCE_nil_deref_counterexample :
    eNoNetwork.Zone.isSome ∧ eNoNetwork.Image.isSome ∧
    eNoNetwork.CanIPForward.isSome ∧ eNoNetwork.MachineType.isSome ∧
    eNoNetwork.Name.isSome ∧
    mapToGCE "proj" gceIPResolver eNoNetwork = .error (.fault "Network") := by
  refine ⟨rfl, rfl, rfl, rfl, rfl, ?_⟩
  decide

/-- C9 (amended): `mapToGCE` has the unstated precondition `mapPre` —
the pointer fields Zone, Image, CanIPForward, MachineType and Name are
all non-nil, and additionally the image spec is well-formed, every
referenced disk and subnet is named, and a named Network is present
whenever IPAddress is set.  Under `mapPre` the mapping never nil-faults
or exits (any failure is an ordinary returned error).  Conversely, a nil
Zone or Image always faults, and a nil CanIPForward, MachineType or Name
faults as soon as the earlier stages (image URL build, disk mapping,
network-interface block, metadata rendering) have succeeded — an earlier
error return being the only thing that can preempt the fault. -/
theorem mapToGCE_nil_deref_precondition :
    (∀ project (resolver : IPAddress → Except String (Option String)) e,
      mapPre e → ∀ er, mapToGCE project resolver e = .error er →
        ∃ m, er = GErr.err m) ∧
    (∀ project (resolver : IPAddress → Except String (Option String)) e,
      e.Zone = none → mapToGCE project resolver e = .error (.fault "Zone")) ∧
    (∀ project (resolver : IPAddress → Except String (Option String)) e zone,
      e.Zone = some zone → e.Image = none →
      mapToGCE project resolver e = .error (.fault "Image")) ∧
    (∀ project (resolver : IPAddress → Except String (Option String)) e zone image
      imageURL ds nis its,
      e.Zone = some zone → e.Image = some image →
      BuildImageURL project image = .ok imageURL →
      attachDisks project (e.Disks.getD []) = .ok ds →
      mkNetworkInterfaces project resolver e = .ok nis →
      renderMetadataItems (e.Metadata.getD []) = .ok its →
      e.CanIPForward = none →
      mapToGCE project resolver e = .error (.fault "CanIPForward")) ∧
    (∀ project (resolver : IPAddress → Except String (Option String)) e zone image
      imageURL ds nis its canIp,
      e.Zone = some zone → e.Image = some image →
      BuildImageURL project image = .ok imageURL →
      attachDisks project (e.Disks.getD []) = .ok ds →
      mkNetworkInterfaces project resolver e = .ok nis →
      renderMetadataItems (e.Metadata.getD []) = .ok its →
      e.CanIPForward = some canIp → e.MachineType = none →
      mapToGCE project resolver e = .error (.fault "MachineType")) ∧
    (∀ project (resolver : IPAddress → Except String (Option String)) e zone image
      imageURL ds nis its canIp machineType,
      e.Zone = some zone → e.Image = some image →
      BuildImageURL project image = .ok imageURL →
      attachDisks project (e.Disks.getD []) = .ok ds →
      mkNetworkInterfaces project resolver e = .ok nis →
      renderMetadataItems (e.Metadata.getD []) = .ok its →
      e.CanIPForward = some canIp → e.MachineType = some machineType →
      e.Name = none →
      mapToGCE project resolver e = .error (.fault "Name")) := by
  refine ⟨?_, ?_, ?_, ?_, ?_, ?_⟩
  · intro project resolver e hpre er h
    obtain ⟨hz, him, hcan, hmt, hnm, hlen, hdisks, hnw, hsn⟩ := hpre
    obtain ⟨zone, hz'⟩ := Option.isSome_iff_exists.mp hz
    obtain ⟨image, him'⟩ := Option.isSome_iff_exists.mp him
    obtain ⟨canIp, hcan'⟩ := Option.isSome_iff_exists.mp hcan
    obtain ⟨machineType, hmt'⟩ := Option.isSome_iff_exists.mp hmt
    obtain ⟨name, hnm'⟩ := Option.isSome_iff_exists.mp hnm
    rw [him'] at hlen
    obtain ⟨u, hbu⟩ := buildImageURL_ok project image (by simpa using hlen)
    obtain ⟨ds, hds⟩ := attachDisks_ok project _ hdisks
    cases hni : mkNetworkInterfaces project resolver e with
    | error er2 =>
      simp only [mapToGCE, hz', him', hbu, hds, hni] at h
      obtain ⟨m, hm⟩ := mkNetworkInterfaces_err project resolver e hnw hsn er2 hni
      exact ⟨m, (Except.error.inj h).symm.trans hm⟩
    | ok nis =>
      cases hmd : renderMetadataItems (e.Metadata.getD []) with
      | error er3 =>
        simp only [mapToGCE, hz', him', hbu, hds, hni, hmd] at h
        obtain ⟨m, hm⟩ := renderMetadataItems_err _ er3 hmd
        exact ⟨m, (Except.error.inj h).symm.trans hm⟩
      | ok its =>
        simp only [mapToGCE, hz', him', hbu, hds, hni, hmd, hcan', hmt', hnm'] at h
        exact absurd h (by simp)
  · intro project resolver e hz
    simp [mapToGCE, hz]
  · intro project resolver e zone hz him
    simp [mapToGCE, hz, him]
  · intro project resolver e zone image imageURL ds nis its hz him hbu hds hni hmd hcan
    simp [mapToGCE, hz, him, hbu, hds, hni, hmd, hcan]
  · intro project resolver e zone image imageURL ds nis its canIp
      hz him hbu hds hni hmd hcan hmt
    simp [mapToGCE, hz, him, hbu, hds, hni, hmd, hcan, hmt]
  · intro project resolver e zone image imageURL ds nis its canIp machineType
      hz him hbu hds hni hmd hcan hmt hnm
    simp [mapToGCE, hz, him, hbu, hds, hni, hmd, hcan, hmt, hnm]

/-- The instance `eSample` with a named network and an IPAddress reference whose
address has not yet been resolved. -/
def eIPNoAddr : Instance :=
  { eSample with
    Network := some { Name := some "net-1" }
    IPAddress := some { Name := some "ip-1", Address := none } }

/-- Witness for C9 (amended): under the full precondition a mapping
failure is an ordinary error (here: the unresolved IP address), and a
concrete instance with a nil Zone faults at "Zone". -/
theorem mapToGCE_nil_deref_precondition_witness :
    (∃ m, GErr.err "instance IP address has not yet been created" = GErr.err m) ∧
    mapToGCE "proj" gceIPResolver zeroInstance = .error (.fault "Zone") := by
  constructor
  · refine mapToGCE_nil_deref_precondition.1 "proj" gceIPResolver eIPNoAddr
      ⟨rfl, rfl, rfl, rfl, rfl, by decide, by decide,
        fun _ => ⟨{ Name := some "net-1" }, rfl, rfl⟩,
        fun s hs => Option.noConfusion hs⟩ _ ?_
    decide
  · exact mapToGCE_nil_deref_precondition.2.1 "proj" gceIPResolver zeroInstance rfl

end KopsGCE
